import Mathlib

/-!
Shallow embedding of the `python-rss-keyword-filter` repository.

Source files embedded here:
  * `src/rss_filter/feed.py`          — keyword extraction, item predicates,
    item removal (`filter_feed`), attribution rewriting.
  * `src/rss_filter/server/cache.py`  — cache configuration, conditional
    fetch (`fetch_with_cache`), size-based eviction
    (`cleanup_old_cache_entries`).
  * `src/rss_filter/server/server.py` — `RateLimiter.is_allowed`, `Metrics`.
  * `src/rss_filter/server/routes.py` — the `/filter` endpoint control flow.

Python strings are Lean `String`s; byte payloads are `List Nat`; wall-clock
times (`time.time()`) are integer seconds (`Int`).  Effectful calls (the
HTTP client, the filesystem) are passed in explicitly as values describing
their outcome, so every function below is pure and executable.
-/

namespace RssFilter

/-! ## String helpers mirroring Python `str` operations -/

/-- Python `s.endswith(pat)`. -/
def strEndsWith (s pat : String) : Bool :=
  pat.data.isSuffixOf s.data

/-- Python `pat in s` on lists of characters: does `pat` occur as a
contiguous subsequence of `hay`? -/
def listContainsSub (pat : List Char) : List Char → Bool
  | [] => pat.isEmpty
  | c :: t => pat.isPrefixOf (c :: t) || listContainsSub pat t

/-- Python `pat in s` for strings (substring containment). -/
def strContainsSub (s pat : String) : Bool :=
  listContainsSub pat.data s.data

theorem isPrefixOf_append_self (xs ys : List Char) :
    xs.isPrefixOf (xs ++ ys) = true := by
  rw [ List.isPrefixOf_iff_prefix]
  exact List.prefix_append xs ys

theorem isSuffixOf_append_self (xs ys : List Char) :
    ys.isSuffixOf (xs ++ ys) = true := by
  rw [ List.isSuffixOf_iff_suffix]
  exact List.suffix_append xs ys

theorem listContainsSub_append_self (pat rest : List Char) :
    listContainsSub pat (pat ++ rest) = true := by
  cases pat with
  | nil =>
    cases rest with
    | nil => rfl
    | cons c t => simp [listContainsSub, List.isPrefixOf]
  | cons p ps =>
    show listContainsSub (p :: ps) (p :: (ps ++ rest)) = true
    simp only [listContainsSub, Bool.or_eq_true]
    left
    rw [← List.cons_append]
    exact isPrefixOf_append_self (p :: ps) rest

theorem strContainsSub_append_self (pat rest : String) :
    strContainsSub (pat ++ rest) pat = true := by
  simp only [strContainsSub, String.data_append]
  exact listContainsSub_append_self pat.data rest.data

theorem strEndsWith_append (s mid pat : String) :
    strEndsWith (s ++ (mid ++ pat)) pat = true := by
  simp only [strEndsWith, String.data_append, ← List.append_assoc]
  exact isSuffixOf_append_self (s.data ++ mid.data) pat.data

/-! ## Regular expressions

`item_matches` calls `re.search(regex, keywords_text)`.  We embed the
regular-expression pattern as an abstract syntax tree and `re.search` as
"some contiguous substring matches", computed with Brzozowski derivatives.
The constructors cover the regex combinators the claims exercise
(literal characters, `.`, concatenation, alternation, Kleene star); an
absent or empty pattern string — both falsy in the Python `if regex:`
guard — is represented by `Option.none` at the call sites. -/

inductive Regex where
  | fail : Regex
  | emptystr : Regex
  | chr (c : Char) : Regex
  | anychar : Regex
  | cat (a b : Regex) : Regex
  | alt (a b : Regex) : Regex
  | star (a : Regex) : Regex
deriving DecidableEq, Repr

/-- Does the pattern match the empty string? -/
def Regex.nullable : Regex → Bool
  | .fail => false
  | .emptystr => true
  | .chr _ => false
  | .anychar => false
  | .cat a b => a.nullable && b.nullable
  | .alt a b => a.nullable || b.nullable
  | .star _ => true

/-- Brzozowski derivative of a pattern with respect to one character. -/
def Regex.deriv : Regex → Char → Regex
  | .fail, _ => .fail
  | .emptystr, _ => .fail
  | .chr c, d => if c = d then .emptystr else .fail
  | .anychar, _ => .emptystr
  | .cat a b, d =>
      if a.nullable then .alt (.cat (a.deriv d) b) (b.deriv d)
      else .cat (a.deriv d) b
  | .alt a b, d => .alt (a.deriv d) (b.deriv d)
  | .star a, d => .cat (a.deriv d) (.star a)

/-- Does the pattern match some prefix of the character list? -/
def matchesSomePre (r : Regex) : List Char → Bool
  | [] => r.nullable
  | c :: cs => r.nullable || matchesSomePre (r.deriv c) cs

/-- Python `re.search(r, s) is not None`: the pattern matches a contiguous
substring starting at some position of `s`. -/
def reSearch (r : Regex) : List Char → Bool
  | [] => matchesSomePre r []
  | c :: cs => matchesSomePre r (c :: cs) || reSearch r cs

theorem reSearch_nil (r : Regex) : reSearch r [] = r.nullable := rfl

/-! ## Document model (`lxml` element tree)

An element has a tag, optional text and a list of children.  Lean cannot
do structural recursion through a nested `List Elem`, so the child list is
its own mutual inductive. -/

mutual
inductive Elem where
  | mk (tag : String) (text : Option String) (children : ElemList)
inductive ElemList where
  | nil : ElemList
  | cons (head : Elem) (tail : ElemList) : ElemList
end

deriving instance DecidableEq for Elem
deriving instance DecidableEq for ElemList

def Elem.tag : Elem → String
  | .mk t _ _ => t

def Elem.text : Elem → Option String
  | .mk _ x _ => x

def Elem.children : Elem → ElemList
  | .mk _ _ c => c

/-- First child satisfying a predicate (document order), as used by the
XPath child queries in `feed.py`. -/
def ElemList.findFirst (p : Elem → Bool) : ElemList → Option Elem
  | .nil => none
  | .cons c cs => if p c then some c else ElemList.findFirst p cs

/-- lxml writes a namespaced tag as the namespace URI between curly braces
followed by the local part; XPath `local-name()` strips the brace-wrapped
namespace.  `Char.ofNat 123` / `Char.ofNat 125` are the opening and closing
curly braces. -/
def local_name (tag : String) : String :=
  match tag.data with
  | [] => tag
  | c :: _ =>
    if c = Char.ofNat 123 then
      String.mk (((tag.data.dropWhile (fun d => d ≠ Char.ofNat 125))).drop 1)
    else tag

/-! ## `feed.py`: keyword extraction and item predicates -/

/-- `_get_keywords_text`: text of the first child whose local name is
`keywords` (namespace-qualified or not), stripped; empty string when the
element is absent, has no text, or the text is blank. -/
def get_keywords_text (item : Elem) : String :=
  match item.children.findFirst (fun c => local_name c.tag = "keywords") with
  | none => ""
  | some k => (k.text.getD "").trim

/-- `_keywords_set`: lower-cased, trimmed tokens of the comma-separated
keywords text, dropping blank tokens.  The Python set is represented as a
list; the claims only use membership and intersection-emptiness, which do
not depend on de-duplication or order. -/
def keywords_set (keywords_text : String) : List String :=
  if keywords_text = "" then []
  else ((keywords_text.split (fun c => c = ',')).map
          (fun k => k.trim.toLower)).filter (fun k => k ≠ "")

/-- Non-empty intersection of two Python sets represented as lists. -/
def set_intersects (a b : List String) : Bool :=
  a.any (fun x => b.contains x)

/-- Python truthiness of an optional list argument: `None` and `[]` are
falsy. -/
def truthyList (o : Option (List String)) : Bool :=
  match o with
  | none => false
  | some l => !l.isEmpty

/-- `item_matches`: returns `true` to keep the item.  The three early
`return False` branches of the source become three conjoined checks; an
absent (or empty, hence falsy) sub-predicate is vacuously true. -/
def item_matches (item : Elem) (incl excl : Option (List String))
    (rgx : Option Regex) : Bool :=
  let keywords_text := get_keywords_text item
  let keywords := keywords_set keywords_text
  let inclCheck :=
    if truthyList incl then
      set_intersects ((incl.getD []).map (fun s => s.trim.toLower)) keywords
    else true
  let exclCheck :=
    if truthyList excl then
      !set_intersects ((excl.getD []).map (fun s => s.trim.toLower)) keywords
    else true
  let rgxCheck :=
    match rgx with
    | none => true
    | some r => reSearch r keywords_text.data
  inclCheck && exclCheck && rgxCheck

/-! ## `feed.py`: `filter_feed`

The source collects every descendant `item` element (`.//item`), detaches
from its parent each one for which `item_matches` is false, and returns
the number of `item` descendants that remain.  Removal of one item never
changes another item's `item_matches` value (matching only reads the
item's own `keywords` child), so the snapshot-iterate-and-detach loop is
embedded as a recursive filter over the tree. -/

mutual
def filterElems (incl excl : Option (List String)) (rgx : Option Regex) :
    Elem → Elem
  | .mk t x cs => .mk t x (filterChildren incl excl rgx cs)
def filterChildren (incl excl : Option (List String)) (rgx : Option Regex) :
    ElemList → ElemList
  | .nil => .nil
  | .cons c cs =>
    if c.tag = "item" && !item_matches c incl excl rgx then
      filterChildren incl excl rgx cs
    else
      .cons (filterElems incl excl rgx c) (filterChildren incl excl rgx cs)
end

mutual
/-- Number of strict-descendant elements tagged `item` (`.//item`). -/
def countItems : Elem → Nat
  | .mk _ _ cs => countItemsL cs
def countItemsL : ElemList → Nat
  | .nil => 0
  | .cons c cs => (if c.tag = "item" then 1 else 0) + countItems c + countItemsL cs
end

/-- `filter_feed`: removes non-matching items in place and returns the
remaining `item` count.  The embedding returns the count together with the
mutated document. -/
def filter_feed (root : Elem) (incl excl : Option (List String))
    (rgx : Option Regex) : Nat × Elem :=
  let root' := filterElems incl excl rgx root
  (countItems root', root')

/-- Top-level children of an element carrying a given tag (used to state
that the `channel` child of the feed root survives filtering). -/
def ElemList.countTag (t : String) : ElemList → Nat
  | .nil => 0
  | .cons c cs => (if c.tag = t then 1 else 0) + ElemList.countTag t cs

/-! ## `feed.py`: `add_attribution_metadata`

The function mutates only channel-level metadata: the `title`, a
`description`, the `generator` and the `link` child of the `channel`
element (the commented-out `docs` block does nothing).  The embedding
works on a record of exactly those four fields, each an optional text; a
present element whose text is `None` behaves as the empty string, as in
the source (`description_elem.text or ""`).  When the document has no
`channel` the source returns immediately, leaving the document unchanged. -/

structure Channel where
  title : Option String
  description : Option String
  generator : Option String
  link : Option String
deriving DecidableEq, Repr

/-- The fixed attribution sentence, embedding the source locator or the
placeholder `unknown`. -/
def attribution_line (original_source : Option String) : String :=
  "[This is a filtered version of an RSS feed. Original source: " ++
    (original_source.getD "unknown") ++ "]\n\n"

/-- Title step: append " (Filtered)" when the element exists, has truthy
text, and the text does not already end with "(Filtered)". -/
def title_step : Option String → Option String
  | none => none
  | some t =>
    if t ≠ "" ∧ strEndsWith t "(Filtered)" = false then some (t ++ " (Filtered)")
    else some t

/-- Description step: create the element (empty text) if absent, then
prepend the attribution line unless it already occurs in the current
text. -/
def description_step (line : String) (d : Option String) : String :=
  let cur := d.getD ""
  if strContainsSub cur line then cur else line ++ cur

/-- Generator step: create once, never duplicate or overwrite. -/
def generator_step : Option String → Option String
  | none => some "python-rss-keyword-filter v0.1.0"
  | some g => some g

/-- Link step: only when a source locator is given, create if absent. -/
def link_step (original_source : Option String) : Option String → Option String
  | none => original_source
  | some l => some l

def add_attribution_metadata (ch : Channel) (original_source : Option String) :
    Channel :=
  ⟨title_step ch.title,
   some (description_step (attribution_line original_source) ch.description),
   generator_step ch.generator,
   link_step original_source ch.link⟩

/-! ## `server/cache.py`: configuration, conditional fetch, eviction -/

/-- The three module-level cache globals. -/
structure CacheConfig where
  cache_max_age : Int
  cache_max_size_mb : Nat
  max_payload_size : Nat
deriving DecidableEq, Repr

/-- `set_cache_config(max_age, max_size_mb, max_payload_mb)`: assigns the
three globals.  The third argument is stored into `MAX_PAYLOAD_SIZE`
as-is — the source performs no megabyte-to-byte conversion on it. -/
def set_cache_config (max_age : Int) (max_size_mb : Nat)
    (max_payload_mb : Nat) : CacheConfig :=
  ⟨max_age, max_size_mb, max_payload_mb⟩

/-- Raw payload bytes. -/
abbrev Bytes := List Nat

/-- The sidecar metadata record persisted next to the content blob.  A
stored-but-falsy token (absent key or empty string, both falsy under
`dict.get`) is `none`. -/
structure CacheMeta where
  fetched_at : Int
  etag : Option String
  last_modified : Option String
deriving DecidableEq, Repr

/-- The on-disk state of one cache key: the parsed sidecar (`none` when
the file is absent or unreadable) and the content blob. -/
structure CacheState where
  meta : Option CacheMeta
  content_exists : Bool
  content : Bytes
deriving DecidableEq, Repr

/-- The upstream response as seen through the httpx client. -/
structure HttpResponse where
  status_code : Nat
  content : Bytes
  etag : Option String
  last_modified : Option String
deriving DecidableEq, Repr

/-- Outcome of `await httpx_client.get(...)`: a `TimeoutError`, another
transport exception, or a response. -/
inductive FetchResult where
  | timeout : FetchResult
  | transportFailure : FetchResult
  | success (resp : HttpResponse) : FetchResult
deriving DecidableEq, Repr

/-- The conditional headers attached to the upstream request. -/
structure CondHeaders where
  if_none_match : Option String
  if_modified_since : Option String
deriving DecidableEq, Repr

/-- Header-building prelude of `fetch_with_cache` (the block reading the
sidecar): returns the conditional headers and the `cache_expired` flag.
In the source the expiry test and the etag test are an `if`/`elif` chain,
while the last-modified test is an independent `if`. -/
def conditional_headers (cfg : CacheConfig) (now : Int)
    (meta : Option CacheMeta) : CondHeaders × Bool :=
  match meta with
  | none => (⟨none, none⟩, false)
  | some m =>
    let cache_expired := now - m.fetched_at > cfg.cache_max_age
    (⟨(if cache_expired then none else m.etag), m.last_modified⟩, cache_expired)

/-- `is_feed_content_type`: lenient allow-list substring check.  In
`fetch_with_cache` a mismatch only logs a warning and does not change the
result, so the fetch embedding below does not consume it. -/
def is_feed_content_type (content_type : Option String) : Bool :=
  match content_type with
  | none => true
  | some ct =>
    if ct = "" then true
    else ["rss", "atom", "xml", "feed"].any (fun t => strContainsSub ct.toLower t)

/-- `fetch_with_cache`: conditional fetch of one locator.  The failure
branches raise `HTTPException` with the status carried in the `Except`
error; the success value is the returned `(bytes, meta)` pair.  The second
component of the result is the cache state after the call (the persist
step; a 413 rejection happens before anything is written). -/
def fetch_with_cache (cfg : CacheConfig) (now : Int) (st : CacheState)
    (fetched : FetchResult) : Except Nat (Bytes × Option CacheMeta) × CacheState :=
  let cache_expired := (conditional_headers cfg now st.meta).2
  match fetched with
  | .timeout => (.error 504, st)
  | .transportFailure => (.error 502, st)
  | .success resp =>
    if resp.status_code = 304 ∧ st.content_exists ∧ ¬ cache_expired then
      (.ok (st.content, st.meta), st)
    else if resp.status_code ≥ 400 then
      (.error resp.status_code, st)
    else if resp.content.length > cfg.max_payload_size then
      (.error 413, st)
    else
      let meta : CacheMeta := ⟨now, resp.etag, resp.last_modified⟩
      (.ok (resp.content, some meta),
        { meta := some meta, content_exists := true, content := resp.content })

/-! ### Eviction (`cleanup_old_cache_entries`)

The sweep works on the whole cache directory: a list of files with path,
last-modification time and size.  The source compares
`total_size / (1024*1024)` (a float) against `CACHE_MAX_SIZE_MB`; in exact
arithmetic that is `total_size ≤ CACHE_MAX_SIZE_MB * 1048576` bytes.
`entries.sort()` sorts `(mtime, filepath)` tuples lexicographically and
the loop removes `entries[: len(entries) // 2]`; the embedding returns the
surviving files, i.e. the sorted list minus its first half. -/

structure CacheFile where
  path : String
  mtime : Int
  size : Nat
deriving DecidableEq, Repr

def total_cache_size (fs : List CacheFile) : Nat :=
  (fs.map (fun f => f.size)).sum

/-- Lexicographic order on `(mtime, filepath)` tuples used by the sort. -/
def entryLE (a b : CacheFile) : Prop :=
  a.mtime < b.mtime ∨ (a.mtime = b.mtime ∧ a.path ≤ b.path)

instance : DecidableRel entryLE := fun a b => by
  unfold entryLE; infer_instance

instance : IsTotal CacheFile entryLE where
  total a b := by
    rcases lt_trichotomy a.mtime b.mtime with h | h | h
    · exact Or.inl (Or.inl h)
    · rcases le_total a.path b.path with hp | hp
      · exact Or.inl (Or.inr ⟨h, hp⟩)
      · exact Or.inr (Or.inr ⟨h.symm, hp⟩)
    · exact Or.inr (Or.inl h)

instance : IsTrans CacheFile entryLE where
  trans a b c hab hbc := by
    rcases hab with h1 | ⟨h1, h1p⟩ <;> rcases hbc with h2 | ⟨h2, h2p⟩
    · exact Or.inl (h1.trans h2)
    · exact Or.inl (h2 ▸ h1)
    · exact Or.inl (h1 ▸ h2)
    · exact Or.inr ⟨h1.trans h2, h1p.trans h2p⟩

def cleanup_old_cache_entries (cfg : CacheConfig) (fs : List CacheFile) :
    List CacheFile :=
  if total_cache_size fs ≤ cfg.cache_max_size_mb * 1048576 then fs
  else
    let sorted := List.insertionSort entryLE fs
    sorted.drop (sorted.length / 2)

/-! ## `server/server.py`: rate limiter and metrics -/

/-- `RateLimiter`: per-client-IP timestamp lists (`defaultdict(list)` is a
total map defaulting to the empty list). -/
structure RateLimiter where
  max_requests : Nat
  window_seconds : Int
  requests : String → List Int

/-- `RateLimiter.is_allowed`: prune timestamps at or before the cutoff,
reject without recording when the pruned count reaches the maximum,
otherwise record `now` and accept. -/
def RateLimiter.is_allowed (rl : RateLimiter) (client_ip : String)
    (now : Int) : Bool × RateLimiter :=
  let cutoff := now - rl.window_seconds
  let pruned := (rl.requests client_ip).filter (fun t => t > cutoff)
  if pruned.length ≥ rl.max_requests then
    (false,
      { rl with requests := fun ip => if ip = client_ip then pruned else rl.requests ip })
  else
    (true,
      { rl with requests := fun ip => if ip = client_ip then pruned ++ [now] else rl.requests ip })

/-- The `Metrics` counters. -/
structure Metrics where
  requests_total : Nat
  requests_success : Nat
  requests_error : Nat
  requests_rate_limited : Nat
  cache_hits : Nat
  cache_misses : Nat
  filters_applied : Nat
  items_removed : Nat
deriving DecidableEq, Repr

/-! ## `server/routes.py`: the `/filter` endpoint

`filter_bytes` (parse, `filter_feed`, `add_attribution_metadata`,
serialize) runs on raw bytes; the embedding abstracts it as a function
`filterStep` that either produces output bytes or raises (a `ParseError`
on malformed input).  The `try` block wraps both the fetch and the filter
step, and its `except Exception` handler catches every exception raised
inside — including the `HTTPException` values that `fetch_with_cache`
raises with statuses 504, 502, 413 or the upstream status — and re-raises
`HTTPException(status_code=500, detail=str(exc))`. -/

def filter_endpoint (m : Metrics) (rl : RateLimiter) (client_ip : String)
    (now : Int) (cfg : CacheConfig) (st : CacheState) (fetched : FetchResult)
    (filterStep : Bytes → Except Unit Bytes) :
    Nat × Metrics × RateLimiter × CacheState :=
  let m1 := { m with requests_total := m.requests_total + 1 }
  match rl.is_allowed client_ip now with
  | (false, rl') =>
    (429, { m1 with requests_rate_limited := m1.requests_rate_limited + 1 }, rl', st)
  | (true, rl') =>
    match fetch_with_cache cfg now st fetched with
    | (.error _, st') =>
      (500, { m1 with requests_error := m1.requests_error + 1 }, rl', st')
    | (.ok (content_bytes, _), st') =>
      match filterStep content_bytes with
      | .error _ =>
        (500, { m1 with requests_error := m1.requests_error + 1 }, rl', st')
      | .ok _ =>
        (200, { m1 with requests_success := m1.requests_success + 1,
                        filters_applied := m1.filters_applied + 1 }, rl', st')

/-! ## Shared helper lemmas -/

/-- With no include set, no exclude set and no pattern, every item
matches. -/
theorem item_matches_all_none (e : Elem) :
    item_matches e none none none = true := by
  simp [item_matches, truthyList]

mutual
theorem filterElems_all_none : ∀ e, filterElems none none none e = e
  | .mk t x cs => by
    simp only [filterElems, filterChildren_all_none cs]
theorem filterChildren_all_none : ∀ l, filterChildren none none none l = l
  | .nil => rfl
  | .cons c cs => by
    simp only [filterChildren, item_matches_all_none c, Bool.not_true,
      Bool.and_false, Bool.false_eq_true, if_false,
      filterElems_all_none c, filterChildren_all_none cs]
end

theorem filterElems_tag (incl excl : Option (List String)) (rgx : Option Regex)
    (e : Elem) : (filterElems incl excl rgx e).tag = e.tag := by
  cases e; rfl

theorem countTag_filterChildren (incl excl : Option (List String))
    (rgx : Option Regex) :
    ∀ l, ElemList.countTag "channel" (filterChildren incl excl rgx l) =
      ElemList.countTag "channel" l
  | .nil => rfl
  | .cons c cs => by
    simp only [filterChildren]
    by_cases h : (c.tag = "item" && !item_matches c incl excl rgx) = true
    · rw [if_pos h]
      have hc : c.tag = "item" := by
        simpa using (Bool.and_eq_true _ _ |>.mp h).1
      simp only [ElemList.countTag, countTag_filterChildren incl excl rgx cs, hc]
      simp
    · rw [if_neg h]
      simp only [ElemList.countTag, filterElems_tag,
        countTag_filterChildren incl excl rgx cs]

/-! ## Claims about the filter engine -/

/-- Claim C10: with no include set, no exclude set and no regex pattern,
`filter_feed` removes nothing and returns exactly the number of item
elements; and for every predicate combination the root element and the
top-level `channel` children survive filtering. -/
theorem c10_empty_predicates_and_structure (root : Elem)
    (incl excl : Option (List String)) (rgx : Option Regex) :
    filter_feed root none none none = (countItems root, root) ∧
    (filterElems incl excl rgx root).tag = root.tag ∧
    ElemList.countTag "channel" (filterElems incl excl rgx root).children =
      ElemList.countTag "channel" root.children := by
  refine ⟨?_, filterElems_tag incl excl rgx root, ?_⟩
  · simp [filter_feed, filterElems_all_none root]
  · cases root with
    | mk t x cs =>
      simp only [filterElems, Elem.children]
      exact countTag_filterChildren incl excl rgx cs

/-- Claim C5 counterexample: an item carrying no keywords element, matched
against the non-empty pattern `a*`: `re.search` finds an empty-width match
in the empty keywords text, so `item_matches` returns `true` and the item
is kept — refuting "item_matches returns False whenever a non-empty regex
pattern is configured, for every such pattern". -/
theorem c5_counterexample_nullable_pattern :
    item_matches
      (.mk "item" none (.cons (.mk "title" (some "Item No Keywords") .nil) .nil))
      none none (some (.star (.chr 'a'))) = true := by decide

/-- Claim C5 (amended): for an item with no keywords element, a truthy
include predicate removes it and an exclude predicate alone keeps it; a
configured pattern keeps it exactly when the pattern matches the empty
string, so it is removed by every pattern that does not match the empty
string. -/
theorem c5_no_keywords_item (item : Elem) (incl excl : Option (List String))
    (r : Regex)
    (hkw : item.children.findFirst (fun c => local_name c.tag = "keywords") = none) :
    (truthyList incl = true → item_matches item incl none none = false) ∧
    item_matches item none excl none = true ∧
    item_matches item none none (some r) = r.nullable := by
  have htext : get_keywords_text item = "" := by
    simp [get_keywords_text, hkw]
  have hset : keywords_set (get_keywords_text item) = [] := by
    rw [htext]; rfl
  have hinter : ∀ a : List String, set_intersects a [] = false := by
    intro a
    simp [set_intersects]
  refine ⟨?_, ?_, ?_⟩
  · intro htr
    simp [item_matches, htr, hset, hinter]
  · simp [item_matches, truthyList, hset, hinter]
  · simp [item_matches, truthyList, hset, hinter, htext, reSearch_nil]

/-- Claim C5 witness: the amended statement evaluated at a concrete
no-keywords item, include list `python`, exclude list `ads` and the
pattern `x`. -/
theorem c5_no_keywords_item_witness :
    (truthyList (some ["python"]) = true →
      item_matches
        (.mk "item" none (.cons (.mk "title" (some "Item No Keywords") .nil) .nil))
        (some ["python"]) none none = false) ∧
    item_matches
      (.mk "item" none (.cons (.mk "title" (some "Item No Keywords") .nil) .nil))
      none (some ["ads"]) none = true ∧
    item_matches
      (.mk "item" none (.cons (.mk "title" (some "Item No Keywords") .nil) .nil))
      none none (some (.chr 'x')) = (Regex.chr 'x').nullable :=
  c5_no_keywords_item
    (.mk "item" none (.cons (.mk "title" (some "Item No Keywords") .nil) .nil))
    (some ["python"]) (some ["ads"]) (.chr 'x') (by decide)

/-! ## Claims about the attribution rewriter -/

theorem title_step_idem (t : Option String) :
    title_step (title_step t) = title_step t := by
  cases t with
  | none => rfl
  | some t =>
    by_cases h : t ≠ "" ∧ strEndsWith t "(Filtered)" = false
    · have happ : t ++ " (Filtered)" = t ++ (" " ++ "(Filtered)") := rfl
      have hend : strEndsWith (t ++ " (Filtered)") "(Filtered)" = true := by
        rw [happ]; exact strEndsWith_append t " " "(Filtered)"
      simp [title_step, h, hend]
    · simp [title_step, h]

theorem description_step_idem (line : String) (d : Option String) :
    description_step line (some (description_step line d)) =
      description_step line d := by
  by_cases h : strContainsSub (d.getD "") line = true
  · simp [description_step, h]
  · simp only [description_step, h]
    simp [strContainsSub_append_self line (d.getD "")]

theorem generator_step_idem (g : Option String) :
    generator_step (generator_step g) = generator_step g := by
  cases g <;> rfl

theorem link_step_idem (src : Option String) (l : Option String) :
    link_step src (link_step src l) = link_step src l := by
  cases l with
  | none => cases src <;> rfl
  | some x => rfl

/-- Claim C8: `add_attribution_metadata` is idempotent — a second
application with the same source locator leaves the channel title,
description, generator and link exactly as after the first application. -/
theorem c8_add_attribution_idempotent (ch : Channel) (src : Option String) :
    add_attribution_metadata (add_attribution_metadata ch src) src =
      add_attribution_metadata ch src := by
  obtain ⟨t, d, g, l⟩ := ch
  simp only [add_attribution_metadata, Channel.mk.injEq]
  exact ⟨title_step_idem t, by rw [description_step_idem],
    generator_step_idem g, link_step_idem src l⟩

/-! ## Claims about the cache layer -/

/-- Claim C2: after `set_cache_config(_, _, 1)` — a one-megabyte limit —
`MAX_PAYLOAD_SIZE` holds the raw megabyte count `1`, so a 2-byte body
(far below `1 * 1024 * 1024` bytes) is rejected with status 413, with
nothing persisted.  The source stores `max_payload_mb` without the
megabyte-to-byte conversion that the claim (and the byte-denominated
default `50 * 1024 * 1024`) requires. -/
theorem c2_payload_limit_unit_mismatch :
    (set_cache_config 86400 500 1).max_payload_size = 1 ∧
    (fetch_with_cache (set_cache_config 86400 500 1) 1000
        ⟨none, false, []⟩ (.success ⟨200, [7, 7], none, none⟩)).1 = .error 413 ∧
    (fetch_with_cache (set_cache_config 86400 500 1) 1000
        ⟨none, false, []⟩ (.success ⟨200, [7, 7], none, none⟩)).2 = ⟨none, false, []⟩ ∧
    2 ≤ 1 * 1024 * 1024 :=
  ⟨rfl, rfl, rfl, by norm_num⟩

/-- Claim C3 counterexample: a cached entry fetched at time 0 with both an
etag and a last-modified token, examined at time 100000 with a freshness
window of 86400 seconds: the window has elapsed, yet the conditional
headers carry no `If-None-Match` — the stored etag is not attached,
refuting "every stored validator token attached". -/
theorem c3_counterexample_expired_drops_etag :
    conditional_headers (set_cache_config 86400 500 50) 100000
        (some ⟨0, some "W-abc", some "Mon, 01 Jan 2024 00:00:00 GMT"⟩) =
      (⟨none, some "Mon, 01 Jan 2024 00:00:00 GMT"⟩, true) := rfl

/-- Claim C3 (amended): once the freshness window has elapsed the upstream
request is still issued, with `If-Modified-Since` attached exactly when a
last-modified token is stored; but `If-None-Match` is never attached to an
expired entry — the `elif` chain only attaches the etag while the entry is
fresh. -/
theorem c3_expired_entry_headers (cfg : CacheConfig) (now : Int) (m : CacheMeta)
    (h : now - m.fetched_at > cfg.cache_max_age) :
    (conditional_headers cfg now (some m)).1.if_none_match = none ∧
    (conditional_headers cfg now (some m)).1.if_modified_since = m.last_modified ∧
    (conditional_headers cfg now (some m)).2 = true := by
  simp [conditional_headers, h]

/-- Claim C3 witness: the amended statement at the counterexample's
concrete entry. -/
theorem c3_expired_entry_headers_witness :
    (conditional_headers (set_cache_config 86400 500 50) 100000
        (some ⟨0, some "W-abc", some "L"⟩)).1.if_none_match = none ∧
    (conditional_headers (set_cache_config 86400 500 50) 100000
        (some ⟨0, some "W-abc", some "L"⟩)).1.if_modified_since =
      (⟨0, some "W-abc", some "L"⟩ : CacheMeta).last_modified ∧
    (conditional_headers (set_cache_config 86400 500 50) 100000
        (some ⟨0, some "W-abc", some "L"⟩)).2 = true :=
  c3_expired_entry_headers (set_cache_config 86400 500 50) 100000
    ⟨0, some "W-abc", some "L"⟩ (by decide)

/-- Claim C4: a previously stored entry carrying a validator token, whose
content file still exists and whose freshness window has not elapsed,
combined with an upstream 304 response, makes `fetch_with_cache` return
exactly the stored bytes and the stored metadata, with the cache state
untouched. -/
theorem c4_not_modified_serves_cache (cfg : CacheConfig) (now : Int)
    (m : CacheMeta) (content : Bytes) (resp : HttpResponse)
    ( _hval : m.etag.isSome = true ∨ m.last_modified.isSome = true)
    (hfresh : ¬ now - m.fetched_at > cfg.cache_max_age)
    (h304 : resp.status_code = 304) :
    fetch_with_cache cfg now ⟨some m, true, content⟩ (.success resp) =
      (.ok (content, some m), ⟨some m, true, content⟩) := by
  simp [fetch_with_cache, conditional_headers, h304, hfresh]

/-- Claim C4 witness: the hit path evaluated at a concrete fresh entry and
a concrete 304 response. -/
theorem c4_not_modified_serves_cache_witness :
    fetch_with_cache (set_cache_config 86400 500 50) 1000
        ⟨some ⟨500, some "E", some "L"⟩, true, [1, 2, 3]⟩
        (.success ⟨304, [], none, none⟩) =
      (.ok ([1, 2, 3], some ⟨500, some "E", some "L"⟩),
        ⟨some ⟨500, some "E", some "L"⟩, true, [1, 2, 3]⟩) :=
  c4_not_modified_serves_cache (set_cache_config 86400 500 50) 1000
    ⟨500, some "E", some "L"⟩ [1, 2, 3] ⟨304, [], none, none⟩
    (Or.inl (by decide)) (by decide) rfl

/-- Claim C7: when the aggregate size is within the bound the sweep
deletes nothing; when it exceeds the bound, exactly
`floor(n/2)` of the `n` files are deleted, every survivor was present
before, and every deleted file is at least as old (by modification time)
as every survivor. -/
theorem c7_eviction_oldest_half (cfg : CacheConfig) (fs : List CacheFile) :
    (total_cache_size fs ≤ cfg.cache_max_size_mb * 1048576 →
      cleanup_old_cache_entries cfg fs = fs) ∧
    (¬ total_cache_size fs ≤ cfg.cache_max_size_mb * 1048576 →
      (cleanup_old_cache_entries cfg fs).length = fs.length - fs.length / 2 ∧
      (∀ k ∈ cleanup_old_cache_entries cfg fs, k ∈ fs) ∧
      (∀ d ∈ fs, d ∉ cleanup_old_cache_entries cfg fs →
        ∀ k ∈ cleanup_old_cache_entries cfg fs, d.mtime ≤ k.mtime)) := by
  constructor
  · intro h
    simp [cleanup_old_cache_entries, h]
  · intro h
    have hperm : List.Perm (List.insertionSort entryLE fs) fs :=
      List.perm_insertionSort entryLE fs
    have hlen : (List.insertionSort entryLE fs).length = fs.length := hperm.length_eq
    have hres : cleanup_old_cache_entries cfg fs =
        (List.insertionSort entryLE fs).drop ((List.insertionSort entryLE fs).length / 2) := by
      simp [cleanup_old_cache_entries, h]
    have hsplit :
        (List.insertionSort entryLE fs).take ((List.insertionSort entryLE fs).length / 2) ++
          (List.insertionSort entryLE fs).drop ((List.insertionSort entryLE fs).length / 2) =
          List.insertionSort entryLE fs :=
      List.take_append_drop _ _
    have hpw : List.Pairwise entryLE (List.insertionSort entryLE fs) :=
      List.sorted_insertionSort entryLE fs
    refine ⟨?_, ?_, ?_⟩
    · rw [hres, List.length_drop, hlen]
    · intro k hk
      rw [hres] at hk
      exact hperm.mem_iff.mp (List.drop_subset _ _ hk)
    · intro d hd hnot k hk
      rw [hres] at hnot hk
      have hd' : d ∈ List.insertionSort entryLE fs := hperm.mem_iff.mpr hd
      have hdtake : d ∈ (List.insertionSort entryLE fs).take
          ((List.insertionSort entryLE fs).length / 2) := by
        rcases List.mem_append.mp (hsplit ▸ hd') with h' | h'
        · exact h'
        · exact absurd h' hnot
      have hrel := (List.pairwise_append.mp (hsplit.symm ▸ hpw)).2.2 d hdtake k hk
      rcases hrel with hlt | ⟨heq, _⟩
      · exact le_of_lt hlt
      · exact le_of_eq heq

/-- Claim C7 witness: a two-file cache over a zero-megabyte bound — the
sweep keeps exactly the newer file, and the deleted file is the older
one. -/
theorem c7_eviction_oldest_half_witness :
    (¬ total_cache_size [⟨"a.xml", 5, 1⟩, ⟨"b.xml", 2, 1⟩] ≤ 0 * 1048576) ∧
    (cleanup_old_cache_entries ⟨86400, 0, 50⟩
        [⟨"a.xml", 5, 1⟩, ⟨"b.xml", 2, 1⟩]).length = 2 - 2 / 2 ∧
    (∀ k ∈ cleanup_old_cache_entries ⟨86400, 0, 50⟩
        [⟨"a.xml", 5, 1⟩, ⟨"b.xml", 2, 1⟩],
      k ∈ [(⟨"a.xml", 5, 1⟩ : CacheFile), ⟨"b.xml", 2, 1⟩]) ∧
    (∀ d ∈ [(⟨"a.xml", 5, 1⟩ : CacheFile), ⟨"b.xml", 2, 1⟩],
      d ∉ cleanup_old_cache_entries ⟨86400, 0, 50⟩
        [⟨"a.xml", 5, 1⟩, ⟨"b.xml", 2, 1⟩] →
      ∀ k ∈ cleanup_old_cache_entries ⟨86400, 0, 50⟩
        [⟨"a.xml", 5, 1⟩, ⟨"b.xml", 2, 1⟩], d.mtime ≤ k.mtime) := by
  have h := (c7_eviction_oldest_half ⟨86400, 0, 50⟩
    [⟨"a.xml", 5, 1⟩, ⟨"b.xml", 2, 1⟩]).2 (by decide)
  exact ⟨by decide, h.1, h.2.1, h.2.2⟩

/-! ## Claims about the endpoint and the metrics -/

/-- Claim C1: concrete runs of the `/filter` pipeline.  The admission
rejection does surface as 429, and `fetch_with_cache` does raise 504 on a
timeout, 502 on a transport failure and 413 on an oversized payload — but
the endpoint's `except Exception` handler catches those `HTTPException`s
and reports every one of them as status 500. -/
theorem c1_fetch_failures_surface_as_500 :
    (filter_endpoint ⟨0, 0, 0, 0, 0, 0, 0, 0⟩ ⟨0, 60, fun _ => []⟩ "c" 0
        (set_cache_config 86400 500 50) ⟨none, false, []⟩ .timeout
        (fun b => .ok b)).1 = 429 ∧
    (fetch_with_cache (set_cache_config 86400 500 50) 0 ⟨none, false, []⟩
        .timeout).1 = .error 504 ∧
    (filter_endpoint ⟨0, 0, 0, 0, 0, 0, 0, 0⟩ ⟨100, 60, fun _ => []⟩ "c" 0
        (set_cache_config 86400 500 50) ⟨none, false, []⟩ .timeout
        (fun b => .ok b)).1 = 500 ∧
    (fetch_with_cache (set_cache_config 86400 500 50) 0 ⟨none, false, []⟩
        .transportFailure).1 = .error 502 ∧
    (filter_endpoint ⟨0, 0, 0, 0, 0, 0, 0, 0⟩ ⟨100, 60, fun _ => []⟩ "c" 0
        (set_cache_config 86400 500 50) ⟨none, false, []⟩ .transportFailure
        (fun b => .ok b)).1 = 500 ∧
    (fetch_with_cache (set_cache_config 86400 500 1) 0 ⟨none, false, []⟩
        (.success ⟨200, [7, 7], none, none⟩)).1 = .error 413 ∧
    (filter_endpoint ⟨0, 0, 0, 0, 0, 0, 0, 0⟩ ⟨100, 60, fun _ => []⟩ "c" 0
        (set_cache_config 86400 500 1) ⟨none, false, []⟩
        (.success ⟨200, [7, 7], none, none⟩) (fun b => .ok b)).1 = 500 :=
  ⟨rfl, rfl, rfl, rfl, rfl, rfl, rfl⟩

/-- Claim C6: across every branch of the request pipeline — rejection,
fetch failure, cache hit on 304, fresh fetch, filter failure — the
`cache_hits`, `cache_misses` and `items_removed` counters keep their prior
values: neither `fetch_with_cache` nor `filter_feed` touches the metrics
object, and the routing layer never increments these three counters. -/
theorem c6_hit_miss_removed_counters_never_move (m : Metrics)
    (rl : RateLimiter) (ip : String) (now : Int) (cfg : CacheConfig)
    (st : CacheState) (fetched : FetchResult)
    (fs : Bytes → Except Unit Bytes) :
    (filter_endpoint m rl ip now cfg st fetched fs).2.1.cache_hits =
      m.cache_hits ∧
    (filter_endpoint m rl ip now cfg st fetched fs).2.1.cache_misses =
      m.cache_misses ∧
    (filter_endpoint m rl ip now cfg st fetched fs).2.1.items_removed =
      m.items_removed := by
  unfold filter_endpoint
  refine ⟨?_, ?_, ?_⟩ <;>
    · split
      · rfl
      · split
        · rfl
        · split
          · rfl
          · rfl

/-! ## Claims about the rate limiter -/

/-- Claim C9: with a maximum of 2 requests per 60-second window and an
identity with no recorded history, two accepted calls at `t1 ≤ t2` are
followed by a rejected third call at any `t3` within 60 seconds of `t1`;
the rejection records no timestamp (the stored sequence is unchanged); and
a later call more than 60 seconds after `t2` is accepted again. -/
theorem c9_sliding_window (ip : String) (t1 t2 t3 t4 : Int)
    (h12 : t1 ≤ t2) (h23 : t2 ≤ t3) (h31 : t3 - t1 < 60) (h4 : t4 - t2 > 60) :
    ((⟨2, 60, fun _ => []⟩ : RateLimiter).is_allowed ip t1).1 = true ∧
    ((((⟨2, 60, fun _ => []⟩ : RateLimiter).is_allowed ip t1).2.is_allowed
        ip t2).1 = true) ∧
    (((((⟨2, 60, fun _ => []⟩ : RateLimiter).is_allowed ip t1).2.is_allowed
        ip t2).2.is_allowed ip t3).1 = false) ∧
    (((((⟨2, 60, fun _ => []⟩ : RateLimiter).is_allowed ip t1).2.is_allowed
        ip t2).2.is_allowed ip t3).2.requests ip =
      ((((⟨2, 60, fun _ => []⟩ : RateLimiter).is_allowed ip t1).2.is_allowed
        ip t2).2.requests ip)) ∧
    ((((((⟨2, 60, fun _ => []⟩ : RateLimiter).is_allowed ip t1).2.is_allowed
        ip t2).2.is_allowed ip t3).2.is_allowed ip t4).1 = true) := by
  have k21 : t2 - 60 < t1 := by omega
  have k31 : t3 - 60 < t1 := by omega
  have k32 : t3 - 60 < t2 := by omega
  have d41 : ¬ t4 - 60 < t1 := by omega
  have d42 : ¬ t4 - 60 < t2 := by omega
  refine ⟨?_, ?_, ?_, ?_, ?_⟩ <;>
    simp [RateLimiter.is_allowed, k21, k31, k32, d41, d42]

/-- Claim C9 witness: the sliding-window behavior at identity `a` and
times 0, 1, 2, 62. -/
theorem c9_sliding_window_witness :
    ((⟨2, 60, fun _ => []⟩ : RateLimiter).is_allowed "a" 0).1 = true ∧
    ((((⟨2, 60, fun _ => []⟩ : RateLimiter).is_allowed "a" 0).2.is_allowed
        "a" 1).1 = true) ∧
    (((((⟨2, 60, fun _ => []⟩ : RateLimiter).is_allowed "a" 0).2.is_allowed
        "a" 1).2.is_allowed "a" 2).1 = false) ∧
    (((((⟨2, 60, fun _ => []⟩ : RateLimiter).is_allowed "a" 0).2.is_allowed
        "a" 1).2.is_allowed "a" 2).2.requests "a" =
      ((((⟨2, 60, fun _ => []⟩ : RateLimiter).is_allowed "a" 0).2.is_allowed
        "a" 1).2.requests "a")) ∧
    ((((((⟨2, 60, fun _ => []⟩ : RateLimiter).is_allowed "a" 0).2.is_allowed
        "a" 1).2.is_allowed "a" 2).2.is_allowed "a" 62).1 = true) :=
  c9_sliding_window "a" 0 1 2 62 (by decide) (by decide) (by decide) (by decide)

end RssFilter
